import Mathlib

/-!
Verification of the openEHR CDR query client (src/index.js).

The source is a thin HTTP wrapper: a single-repository client (`CDR`) that
POSTs an AQL query and branches on the response status, a typed error
(`CDRError`), and a multi-repository fan-out (`CDRs` / `CDRsResponse` /
`CDRsFormatter`) joined with Promise.all.

Modelling choices:
- JavaScript promises are modelled by their settlement: a pending value that
  will fulfill with `v` is modelled as `v`, and a rejection by an explicit
  error value.  For the multi-repository join, each per-repository result
  additionally carries a completion tick (a natural number), so that the
  fail-fast "first rejection observed wins" semantics of Promise.all is
  expressible.
- `fetch` is modelled by passing the server as a function from requests to
  responses; `CDR.query` issues exactly one request by construction, mirroring
  the single `fetch` call in the source.
- JSON.stringify and the body-decoding of `res.json()` are modelled by an
  executable serializer and parser over a `Json` value type.  JSON number
  literals are modelled as integers (no fraction or exponent forms, which no
  behaviour under verification exercises), and `\uXXXX` escapes are limited to
  Unicode scalar values.
-/

/-- A JSON value: the data model for request and response bodies. -/
inductive Json where
  | null
  | bool (b : Bool)
  | num (n : Int)
  | str (s : String)
  | arr (items : List Json)
  | obj (fields : List (String × Json))
  deriving Repr

/-! ### JSON.stringify -/

/-- Hex digit (lowercase) for a nibble, as used by JSON.stringify control escapes. -/
def hexDigit (n : Nat) : Char :=
  "0123456789abcdef".toList.getD n '0'

/-- Escape one character the way JSON.stringify does: quote, backslash, the
short control escapes, and a four-digit escape for the remaining control
characters. -/
def encodeJsonChar (c : Char) : String :=
  if c == '"' then "\\\""
  else if c == '\\' then "\\\\"
  else if c == Char.ofNat 8 then "\\b"
  else if c == '\t' then "\\t"
  else if c == '\n' then "\\n"
  else if c == Char.ofNat 12 then "\\f"
  else if c == '\r' then "\\r"
  else if c.toNat < 32 then
    "\\u00" ++ String.mk [hexDigit (c.toNat / 16), hexDigit (c.toNat % 16)]
  else String.singleton c

/-- Serialize a string literal with surrounding quotes, as JSON.stringify does. -/
def encodeJsonString (s : String) : String :=
  "\"" ++ String.join (s.toList.map encodeJsonChar) ++ "\""

mutual

/-- Serialization of a JSON value, modelling JSON.stringify (no added whitespace). -/
def Json.stringify : Json → String
  | .null => "null"
  | .bool b => if b then "true" else "false"
  | .num n => toString n
  | .str s => encodeJsonString s
  | .arr es => "[" ++ stringifyItems es ++ "]"
  | .obj ms => "\x7b" ++ stringifyMembers ms ++ "\x7d"

/-- Comma-separated serialization of array elements. -/
def stringifyItems : List Json → String
  | [] => ""
  | [v] => Json.stringify v
  | v :: w :: vs => Json.stringify v ++ "," ++ stringifyItems (w :: vs)

/-- Comma-separated serialization of object members. -/
def stringifyMembers : List (String × Json) → String
  | [] => ""
  | [(k, v)] => encodeJsonString k ++ ":" ++ Json.stringify v
  | (k, v) :: m :: ms =>
      encodeJsonString k ++ ":" ++ Json.stringify v ++ "," ++ stringifyMembers (m :: ms)

end

/-! ### JSON parsing (the model of res.json() / JSON.parse) -/

/-- Whitespace accepted between JSON tokens. -/
def isJsonWs (c : Char) : Bool := c == ' ' || c == '\t' || c == '\n' || c == '\r'

/-- Drop leading JSON whitespace. -/
def skipWs : List Char → List Char
  | [] => []
  | c :: cs => if isJsonWs c then skipWs cs else c :: cs

/-- Numeric value of a hex digit, if any (digits 0-9 then lowercase and
uppercase letter ranges, by code point). -/
def hexVal (c : Char) : Option Nat :=
  let n := c.toNat
  if 48 ≤ n && n ≤ 57 then some (n - 48)
  else if 97 ≤ n && n ≤ 102 then some (n - 87)
  else if 65 ≤ n && n ≤ 70 then some (n - 55)
  else none

/-- Resolution of a single-character escape inside a JSON string. -/
def unescapeChar : Char → Option Char
  | '"' => some '"'
  | '\\' => some '\\'
  | '/' => some '/'
  | 'b' => some (Char.ofNat 8)
  | 'f' => some (Char.ofNat 12)
  | 'n' => some '\n'
  | 'r' => some '\r'
  | 't' => some '\t'
  | _ => none

/-- Parse the contents of a JSON string after the opening quote, accumulating
the decoded characters in reverse.  Surrogate `\u` escapes are rejected (a
Unicode scalar cannot hold them). -/
def parseStringBody (acc : List Char) : List Char → Option (String × List Char)
  | '"' :: rest => some (String.mk acc.reverse, rest)
  | '\\' :: 'u' :: a :: b :: c :: d :: rest =>
      match hexVal a, hexVal b, hexVal c, hexVal d with
      | some va, some vb, some vc, some vd =>
          let code := ((va * 16 + vb) * 16 + vc) * 16 + vd
          if code < 55296 || 57343 < code then
            parseStringBody (Char.ofNat code :: acc) rest
          else none
      | _, _, _, _ => none
  | '\\' :: e :: rest =>
      match unescapeChar e with
      | some ch => parseStringBody (ch :: acc) rest
      | none => none
  | c :: rest => if c.toNat < 32 then none else parseStringBody (c :: acc) rest
  | [] => none

/-- Decimal digit test. -/
def isDigitChar (c : Char) : Bool := '0' ≤ c && c ≤ '9'

/-- Split off a maximal run of decimal digits. -/
def takeDigits : List Char → List Char × List Char
  | [] => ([], [])
  | c :: cs =>
      if isDigitChar c then
        let p := takeDigits cs
        (c :: p.1, p.2)
      else ([], c :: cs)

/-- Numeric value of a digit run. -/
def digitsToNat (ds : List Char) : Nat :=
  ds.foldl (fun acc c => acc * 10 + (c.toNat - '0'.toNat)) 0

/-- Parse a JSON integer literal (optional minus sign, no leading zeros).
Fraction and exponent forms are outside the model and rejected. -/
def parseIntLit (cs : List Char) : Option (Int × List Char) :=
  let p : Bool × List Char := match cs with
    | '-' :: rest => (true, rest)
    | _ => (false, cs)
  match takeDigits p.2 with
  | ([], _) => none
  | (ds, rest) =>
      if ds.length > 1 && ds.headD '0' == '0' then none
      else
        match rest with
        | '.' :: _ => none
        | 'e' :: _ => none
        | 'E' :: _ => none
        | _ =>
            let n : Int := (digitsToNat ds : Nat)
            some (if p.1 then -n else n, rest)

mutual

/-- Parse one JSON value; the fuel bounds the nesting recursion. -/
def parseVal : Nat → List Char → Option (Json × List Char)
  | 0, _ => none
  | fuel + 1, cs =>
      match skipWs cs with
      | 'n' :: 'u' :: 'l' :: 'l' :: rest => some (.null, rest)
      | 't' :: 'r' :: 'u' :: 'e' :: rest => some (.bool true, rest)
      | 'f' :: 'a' :: 'l' :: 's' :: 'e' :: rest => some (.bool false, rest)
      | '"' :: rest =>
          match parseStringBody [] rest with
          | some (s, rest2) => some (.str s, rest2)
          | none => none
      | '[' :: rest =>
          match skipWs rest with
          | ']' :: rest2 => some (.arr [], rest2)
          | rest2 =>
              match parseItems fuel rest2 with
              | some (vs, rest3) => some (.arr vs, rest3)
              | none => none
      | '\x7b' :: rest =>
          match skipWs rest with
          | '\x7d' :: rest2 => some (.obj [], rest2)
          | rest2 =>
              match parseMembers fuel rest2 with
              | some (ms, rest3) => some (.obj ms, rest3)
              | none => none
      | rest =>
          match parseIntLit rest with
          | some (n, rest2) => some (.num n, rest2)
          | none => none

/-- Parse the elements of a non-empty JSON array, up to and including the
closing bracket. -/
def parseItems : Nat → List Char → Option (List Json × List Char)
  | 0, _ => none
  | fuel + 1, cs =>
      match parseVal fuel cs with
      | none => none
      | some (v, rest) =>
          match skipWs rest with
          | ',' :: rest2 =>
              match parseItems fuel rest2 with
              | some (vs, rest3) => some (v :: vs, rest3)
              | none => none
          | ']' :: rest2 => some ([v], rest2)
          | _ => none

/-- Parse the members of a non-empty JSON object, up to and including the
closing brace. -/
def parseMembers : Nat → List Char → Option (List (String × Json) × List Char)
  | 0, _ => none
  | fuel + 1, cs =>
      match skipWs cs with
      | '"' :: rest =>
          match parseStringBody [] rest with
          | none => none
          | some (k, rest2) =>
              match skipWs rest2 with
              | ':' :: rest3 =>
                  match parseVal fuel rest3 with
                  | none => none
                  | some (v, rest4) =>
                      match skipWs rest4 with
                      | ',' :: rest5 =>
                          match parseMembers fuel rest5 with
                          | some (ms, rest6) => some ((k, v) :: ms, rest6)
                          | none => none
                      | '\x7d' :: rest5 => some ([(k, v)], rest5)
                      | _ => none
              | _ => none
      | _ => none

end

/-- Model of JSON.parse (and of the body decode behind res.json()): parse one
value, demanding that only whitespace remains. -/
def jsonParse (s : String) : Option Json :=
  match parseVal (2 * s.length + 2) s.toList with
  | none => none
  | some (v, rest) => if (skipWs rest).isEmpty then some v else none

/-! ### Base64 and UTF-8 (the model of Buffer.from(s).toString(base64)) -/

/-- UTF-8 encoding of one character, as byte values. -/
def utf8Bytes (c : Char) : List Nat :=
  let n := c.toNat
  if n < 128 then [n]
  else if n < 2048 then [192 + n / 64, 128 + n % 64]
  else if n < 65536 then [224 + n / 4096, 128 + n / 64 % 64, 128 + n % 64]
  else [240 + n / 262144, 128 + n / 4096 % 64, 128 + n / 64 % 64, 128 + n % 64]

/-- UTF-8 encoding of a string, as byte values (the model of Buffer.from). -/
def strBytes (s : String) : List Nat :=
  (s.toList.map utf8Bytes).flatten

/-- Character of the standard base64 alphabet at a given index. -/
def b64Char (n : Nat) : Char :=
  "ABCDEFGHIJKLMNOPQRSTUVWXYZabcdefghijklmnopqrstuvwxyz0123456789+/".toList.getD n 'A'

/-- Standard base64 of a byte sequence, three bytes to four characters, with
padding on a short final group. -/
def base64Chunks : List Nat → String
  | [] => ""
  | [a] => String.mk [b64Char (a / 4), b64Char (a % 4 * 16)] ++ "=="
  | [a, b] =>
      String.mk [b64Char (a / 4), b64Char (a % 4 * 16 + b / 16), b64Char (b % 16 * 4)] ++ "="
  | a :: b :: c :: rest =>
      String.mk [b64Char (a / 4), b64Char (a % 4 * 16 + b / 16),
                 b64Char (b % 16 * 4 + c / 64), b64Char (c % 64)]
        ++ base64Chunks rest

/-- Model of Buffer.from(s).toString with base64: base64 over the UTF-8 bytes. -/
def strBase64 (s : String) : String := base64Chunks (strBytes s)

/-! ### HTTP requests, responses and headers -/

/-- An outgoing HTTP request, as handed to fetch. -/
structure Request where
  url : String
  method : String
  body : String
  headers : List (String × String)

/-- A completed HTTP response, as seen by the then-callback on fetch: the
status line data, the header list, and the raw body text. -/
structure Response where
  status : Nat
  statusText : String
  headers : List (String × String)
  body : String

/-- ASCII lowering of one character, for case-insensitive header names. -/
def lowerChar (c : Char) : Char :=
  if 'A' ≤ c && c ≤ 'Z' then Char.ofNat (c.toNat + 32) else c

/-- ASCII lowering of a string, for case-insensitive header names. -/
def lowerStr (s : String) : String :=
  String.mk (s.toList.map lowerChar)

/-- Model of the fetch Headers get method: case-insensitive lookup, null
(here none) when the header is absent. -/
def headersGet (hs : List (String × String)) (name : String) : Option String :=
  (hs.find? (fun kv => lowerStr kv.1 == lowerStr name)).map (fun kv => kv.2)

/-- Prefix test on character lists. -/
def isPrefixChars : List Char → List Char → Bool
  | [], _ => true
  | _ :: _, [] => false
  | a :: as, b :: bs => a == b && isPrefixChars as bs

/-- Containment of a character list at some position of another. -/
def containsChars (sub : List Char) : List Char → Bool
  | [] => sub.isEmpty
  | c :: cs => isPrefixChars sub (c :: cs) || containsChars sub cs

/-- Model of the JavaScript String includes method: substring containment. -/
def strIncludes (s sub : String) : Bool :=
  containsChars sub.toList s.toList

/-! ### CDRError (src/index.js lines 115-124) -/

/-- The settled value of a CDRError body: parsed JSON when the content-type
announced JSON, otherwise the raw text. -/
inductive BodyVal where
  | jsonVal (v : Json)
  | textVal (s : String)
  deriving Repr

/-- Model of CDRError: the message built from the status line, and the body.
The source stores the promise returned by res.json() or res.text() in
this.body; the field here is that promise's settlement, with none standing
for a rejected decode (malformed JSON under an application/json content-type). -/
structure CDRError where
  message : String
  body : Option BodyVal
  deriving Repr

/-- Model of the CDRError constructor.  The source reads
res.headers.get(content-type) and calls includes on it; when the header is
absent that lookup yields null and the constructor throws a TypeError, which
none models here. -/
def CDRError.make (res : Response) : Option CDRError :=
  match headersGet res.headers "content-type" with
  | none => none
  | some ct =>
      some { message := toString res.status ++ " " ++ res.statusText,
             body :=
               if strIncludes ct "application/json" then
                 (jsonParse res.body).map BodyVal.jsonVal
               else
                 some (BodyVal.textVal res.body) }

/-! ### CDR: the single-repository client (src/index.js lines 14-51) -/

/-- How a query call can reject. -/
inductive Rejection where
  | repoError (e : CDRError)
  | decodeError
  | typeError
  deriving Repr

/-- Basic-authentication part of the connection config. -/
structure AuthConfig where
  type : String
  username : String
  password : String

/-- Connection config for one repository. -/
structure Config where
  url : String
  authentication : AuthConfig

/-- A connection to a single Clinical Data Repository: the stored base URL and
the credential string computed at construction. -/
structure CDR where
  url : String
  authentication : String

/-- Model of CDR.prototype private method basic. -/
def CDR.basic (username password : String) : String :=
  "Basic " ++ strBase64 (username ++ ":" ++ password)

/-- Model of the CDR constructor: store the URL and the encoded credentials. -/
def CDR.make (config : Config) : CDR :=
  { url := config.url,
    authentication := CDR.basic config.authentication.username config.authentication.password }

/-- Model of res.ok: status in the 2xx range. -/
def resOk (status : Nat) : Bool :=
  decide (200 ≤ status) && decide (status < 300)

/-- Model of the private checkStatus method: 204 resolves with an empty
object; any other non-ok status throws a CDRError (or a TypeError when the
CDRError constructor itself throws); otherwise the parsed body is returned,
a parse failure being the rejection of the res.json() promise. -/
def checkStatus (res : Response) : Except Rejection Json :=
  if res.status == 204 then
    .ok (Json.obj [])
  else if !resOk res.status then
    match CDRError.make res with
    | some e => .error (.repoError e)
    | none => .error .typeError
  else
    match jsonParse res.body with
    | some v => .ok v
    | none => .error .decodeError

/-- The single request that one query call hands to fetch: POST to the query
endpoint with the serialized aql object and the two headers. -/
def CDR.request (c : CDR) (aql : String) : Request :=
  { url := c.url ++ "/rest/v1/query",
    method := "post",
    body := Json.stringify (Json.obj [("aql", Json.str aql)]),
    headers := [("Content-Type", "application/json"),
                ("Authorization", c.authentication)] }

/-- The requests issued by one call to query: the source calls fetch exactly
once, so the trace is the one-element list. -/
def CDR.queryRequests (c : CDR) (aql : String) : List Request :=
  [c.request aql]

/-- Model of CDR.query: fetch the single request from the server and run the
response through checkStatus.  The server argument stands for the network. -/
def CDR.query (c : CDR) (server : Request → Response) (aql : String) :
    Except Rejection Json :=
  checkStatus (server (c.request aql))

/-! ### CDRs: the multi-repository fan-out (src/index.js lines 57-106) -/

/-- A connection to multiple Clinical Data Repositories: the ordered client list. -/
structure CDRs where
  cdrs : List CDR

/-- Map with the position index, used to let the environment address each
client of the fan-out individually. -/
def mapIdxFrom (f : Nat → α → β) : Nat → List α → List β
  | _, [] => []
  | i, a :: as => f i a :: mapIdxFrom f (i + 1) as

/-- The object holding the per-repository pending results, each paired with
its completion tick. -/
structure CDRsResponse where
  promises : List (Nat × Except Rejection Json)

/-- Model of CDRs.query: call query on every held client, in list order.  The
environment assigns each position its completion tick and its server. -/
def CDRs.query (m : CDRs) (env : Nat → Nat × (Request → Response)) (aql : String) :
    CDRsResponse :=
  ⟨mapIdxFrom (fun i c => ((env i).1, CDR.query c (env i).2 aql)) 0 m.cdrs⟩

/-- The requests issued by one multi-repository query: every client issues its
single request, in client order. -/
def CDRs.queryRequests (m : CDRs) (aql : String) : List Request :=
  (m.cdrs.map (fun c => CDR.queryRequests c aql)).flatten

/-- The settled rejections among the pending results, in list order, keeping
each one's completion tick. -/
def failures : List (Nat × Except Rejection Json) → List (Nat × Rejection)
  | [] => []
  | (t, .error r) :: ps => (t, r) :: failures ps
  | (_, .ok _) :: ps => failures ps

/-- The fulfilled values among the pending results, in list order. -/
def okValues : List (Nat × Except Rejection Json) → List Json
  | [] => []
  | (_, .ok v) :: ps => v :: okValues ps
  | (_, .error _) :: ps => okValues ps

/-- The rejection that settles first: minimal completion tick, the earlier
list position winning a tie (the model of which rejection Promise.all adopts). -/
def firstSettledFailure : List (Nat × Rejection) → Option (Nat × Rejection)
  | [] => none
  | f :: fs =>
      match firstSettledFailure fs with
      | none => some f
      | some g => if g.1 < f.1 then some g else some f

/-- Model of Promise.all over the timed pending results: reject with the
first settled rejection if there is one, otherwise fulfill with every value
in input order. -/
def promiseAll (ps : List (Nat × Except Rejection Json)) : Except Rejection (List Json) :=
  match firstSettledFailure (failures ps) with
  | some f => .error f.2
  | none => .ok (okValues ps)

/-- Class which formats responses from multiple CDRs: wraps the joined promise. -/
structure CDRsFormatter where
  promise : Except Rejection (List Json)

/-- Model of CDRsResponse.all: join every pending result with Promise.all. -/
def CDRsResponse.all (r : CDRsResponse) : CDRsFormatter :=
  ⟨promiseAll r.promises⟩

/-- Model of CDRsFormatter.concat: return the joined promise unchanged. -/
def CDRsFormatter.concat (f : CDRsFormatter) : Except Rejection (List Json) :=
  f.promise

/-! ### Supporting lemmas on the Promise.all model -/

/-- When every pending result fulfilled, no rejection is among them. -/
theorem failures_eq_nil (ps : List (Nat × Except Rejection Json)) (vs : List Json)
    (h : ps.map Prod.snd = vs.map Except.ok) : failures ps = [] := by
  induction ps generalizing vs with
  | nil => rfl
  | cons p ps ih =>
    obtain ⟨t, e⟩ := p
    cases vs with
    | nil => simp at h
    | cons v vs =>
      simp only [List.map_cons, List.cons.injEq] at h
      obtain ⟨h1, h2⟩ := h
      subst h1
      simpa [failures] using ih vs h2

/-- When every pending result fulfilled, the fulfilled values are exactly the
settlements, in order. -/
theorem okValues_eq (ps : List (Nat × Except Rejection Json)) (vs : List Json)
    (h : ps.map Prod.snd = vs.map Except.ok) : okValues ps = vs := by
  induction ps generalizing vs with
  | nil =>
    cases vs with
    | nil => rfl
    | cons v vs => simp at h
  | cons p ps ih =>
    obtain ⟨t, e⟩ := p
    cases vs with
    | nil => simp at h
    | cons v vs =>
      simp only [List.map_cons, List.cons.injEq] at h
      obtain ⟨h1, h2⟩ := h
      subst h1
      simpa [okValues] using ih vs h2

/-- The rejection picked by the join is one of the settled rejections. -/
theorem firstSettledFailure_mem (fs : List (Nat × Rejection)) (f : Nat × Rejection)
    (h : firstSettledFailure fs = some f) : f ∈ fs := by
  induction fs generalizing f with
  | nil => simp [firstSettledFailure] at h
  | cons g fs ih =>
    simp only [firstSettledFailure] at h
    split at h
    · injection h with h
      subst h
      exact List.mem_cons_self g fs
    · rename_i g' hrec
      split at h
      · injection h with h
        subst h
        exact List.mem_cons_of_mem g (ih g' hrec)
      · injection h with h
        subst h
        exact List.mem_cons_self g fs

/-- A rejection that settles strictly before everything preceding it in the
list and no later than everything after it is the one the join picks. -/
theorem firstSettledFailure_of_decomp (t : Nat) (r : Rejection)
    (pre post : List (Nat × Rejection))
    (hpre : ∀ g ∈ pre, t < g.1) (hpost : ∀ g ∈ post, t ≤ g.1) :
    firstSettledFailure (pre ++ (t, r) :: post) = some (t, r) := by
  induction pre with
  | nil =>
    simp only [List.nil_append, firstSettledFailure]
    split
    · rfl
    · rename_i g hrec
      have hle : t ≤ g.1 := hpost g (firstSettledFailure_mem post g hrec)
      exact if_neg (Nat.not_lt.mpr hle)
  | cons p pre ih =>
    rw [List.cons_append]
    simp only [firstSettledFailure]
    rw [ih (fun g hg => hpre g (List.mem_cons_of_mem p hg))]
    exact if_pos (hpre p (List.mem_cons_self p pre))

/-! ### Concrete fixtures used by the witnesses -/

/-- A sample connection config. -/
def demoConfig (u : String) : Config :=
  { url := u, authentication := { type := "basic", username := "user", password := "pass" } }

/-- A sample single-repository client. -/
def demoCDR (u : String) : CDR := CDR.make (demoConfig u)

/-- A 200 response carrying a JSON body. -/
def okResponse (body : String) : Response :=
  { status := 200, statusText := "OK",
    headers := [("content-type", "application/json")], body := body }

/-- A 204 response that nevertheless carries body content. -/
def noContentResponse : Response :=
  { status := 204, statusText := "No Content",
    headers := [("content-type", "application/json")], body := "ignored junk" }

/-- A 200 response with the rows example body. -/
def rowsResponse : Response :=
  { status := 200, statusText := "OK",
    headers := [("content-type", "application/json")],
    body := "\x7b\"rows\":[1,2]\x7d" }

/-- A 401 response with a structured JSON error body. -/
def unauthorizedResponse : Response :=
  { status := 401, statusText := "Unauthorized",
    headers := [("content-type", "application/json")],
    body := "\x7b\"error\":\"unauthorized\"\x7d" }

/-- A 500 response with an HTML error page. -/
def htmlErrorResponse : Response :=
  { status := 500, statusText := "Internal Server Error",
    headers := [("content-type", "text/html")], body := "<html>...</html>" }

/-- A 500 response whose headers carry no content-type at all. -/
def bareErrorResponse : Response :=
  { status := 500, statusText := "Internal Server Error",
    headers := [], body := "oops" }

/-- A short 500 error response used in the fan-out example. -/
def boomResponse : Response :=
  { status := 500, statusText := "Internal Server Error",
    headers := [("content-type", "text/html")], body := "boom" }

/-- Three single-repository clients, in insertion order. -/
def demoCDRs : CDRs := ⟨[demoCDR "http://a", demoCDR "http://b", demoCDR "http://c"]⟩

/-- Environment where all three repositories answer successfully, the second
one completing first (tick 1) and the first one last (tick 5). -/
def demoEnvOk : Nat → Nat × (Request → Response) :=
  fun i =>
    if i == 0 then (5, fun _ => okResponse "1")
    else if i == 1 then (1, fun _ => okResponse "2")
    else (3, fun _ => okResponse "3")

/-- Environment where the second repository fails (tick 1) and the other two
succeed later. -/
def demoEnvFail : Nat → Nat × (Request → Response) :=
  fun i =>
    if i == 0 then (5, fun _ => okResponse "1")
    else if i == 1 then (1, fun _ => boomResponse)
    else (3, fun _ => okResponse "3")

/-- The rejection produced by the failing repository of demoEnvFail. -/
def demoRejection : Rejection :=
  .repoError { message := "500 Internal Server Error", body := some (.textVal "boom") }

/-! ### Helper facts about status branching -/

/-- A status outside the 2xx range is neither 204 nor ok. -/
theorem status_not_ok_aux (s : Nat) (hok : ¬ (200 ≤ s ∧ s < 300)) :
    (s == 204) = false ∧ resOk s = false := by
  constructor
  · simp only [beq_eq_false_iff_ne]
    rintro rfl
    exact hok ⟨by norm_num, by norm_num⟩
  · cases h : resOk s with
    | false => rfl
    | true =>
      rw [resOk, Bool.and_eq_true, decide_eq_true_eq, decide_eq_true_eq] at h
      exact absurd h hok

/-! ### Claim theorems -/

/-- C4: for every response with HTTP status 204, the single-repository query
resolves with the empty object, regardless of any body content, and does not
fail. -/
theorem query_204_resolves_empty (c : CDR) (server : Request → Response) (aql : String)
    (h : (server (c.request aql)).status = 204) :
    c.query server aql = Except.ok (Json.obj []) := by
  simp [CDR.query, checkStatus, h]

/-- Witness for C4: a concrete 204 response with a non-empty body still
resolves to the empty object. -/
theorem query_204_resolves_empty_witness :
    noContentResponse.status = 204
    ∧ (demoCDR "http://a").query (fun _ => noContentResponse) "aql"
        = Except.ok (Json.obj []) :=
  ⟨rfl, query_204_resolves_empty (demoCDR "http://a") (fun _ => noContentResponse) "aql" rfl⟩

/-- C5: for every response with a 2xx status other than 204 whose body decodes
as JSON, the single-repository query resolves with the JSON-decoded response
body. -/
theorem query_2xx_resolves_json (c : CDR) (server : Request → Response) (aql : String)
    (v : Json)
    (h2 : 200 ≤ (server (c.request aql)).status)
    (h3 : (server (c.request aql)).status < 300)
    (h4 : (server (c.request aql)).status ≠ 204)
    (hp : jsonParse (server (c.request aql)).body = some v) :
    c.query server aql = Except.ok v := by
  have hb : ((server (c.request aql)).status == 204) = false := by
    simpa using h4
  have hok : resOk (server (c.request aql)).status = true := by
    rw [resOk, decide_eq_true h2, decide_eq_true h3]
    rfl
  simp [CDR.query, checkStatus, hb, hok, hp]

/-- Witness for C5: HTTP 200 with the rows body resolves to the parsed rows
object. -/
theorem query_2xx_resolves_json_witness :
    200 ≤ rowsResponse.status ∧ rowsResponse.status < 300 ∧ rowsResponse.status ≠ 204
    ∧ jsonParse rowsResponse.body
        = some (Json.obj [("rows", Json.arr [Json.num 1, Json.num 2])])
    ∧ (demoCDR "http://a").query (fun _ => rowsResponse) "aql"
        = Except.ok (Json.obj [("rows", Json.arr [Json.num 1, Json.num 2])]) :=
  ⟨by decide, by decide, by decide, rfl,
   query_2xx_resolves_json (demoCDR "http://a") (fun _ => rowsResponse) "aql"
     (Json.obj [("rows", Json.arr [Json.num 1, Json.num 2])])
     (by decide) (by decide) (by decide) rfl⟩

/-- C1: for every completed response with a non-2xx status whose content-type
header is present, the single-repository query fails with a RepositoryError
whose body is the JSON-decoded error payload when the content-type contains
application/json, and the raw text string otherwise. -/
theorem query_non2xx_repoError (c : CDR) (server : Request → Response) (aql : String)
    (ct : String)
    (hok : ¬ (200 ≤ (server (c.request aql)).status
              ∧ (server (c.request aql)).status < 300))
    (hct : headersGet (server (c.request aql)).headers "content-type" = some ct) :
    c.query server aql = Except.error (.repoError
      { message := toString (server (c.request aql)).status ++ " "
          ++ (server (c.request aql)).statusText,
        body :=
          if strIncludes ct "application/json" then
            (jsonParse (server (c.request aql)).body).map BodyVal.jsonVal
          else
            some (BodyVal.textVal (server (c.request aql)).body) }) := by
  obtain ⟨h204, hro⟩ := status_not_ok_aux _ hok
  simp [CDR.query, checkStatus, CDRError.make, h204, hro, hct]

/-- Witness for C1: the 401 JSON example produces the decoded JSON error body,
and the 500 text/html example keeps the raw HTML string. -/
theorem query_non2xx_repoError_witness :
    (¬ (200 ≤ unauthorizedResponse.status ∧ unauthorizedResponse.status < 300))
    ∧ headersGet unauthorizedResponse.headers "content-type" = some "application/json"
    ∧ (demoCDR "http://a").query (fun _ => unauthorizedResponse) "aql"
        = Except.error (.repoError
            { message := "401 Unauthorized",
              body := some (.jsonVal (Json.obj [("error", Json.str "unauthorized")])) })
    ∧ (demoCDR "http://a").query (fun _ => htmlErrorResponse) "aql"
        = Except.error (.repoError
            { message := "500 Internal Server Error",
              body := some (.textVal "<html>...</html>") }) :=
  ⟨by decide, rfl,
   (query_non2xx_repoError (demoCDR "http://a") (fun _ => unauthorizedResponse) "aql"
      "application/json" (by decide) rfl).trans (by rfl),
   (query_non2xx_repoError (demoCDR "http://a") (fun _ => htmlErrorResponse) "aql"
      "text/html" (by decide) rfl).trans (by rfl)⟩

/-- C8: for every RepositoryError the constructor builds, the message equals
the numeric status code, a single space, and the status text. -/
theorem repoError_message (res : Response) (e : CDRError)
    (h : CDRError.make res = some e) :
    e.message = toString res.status ++ " " ++ res.statusText := by
  unfold CDRError.make at h
  cases hct : headersGet res.headers "content-type" with
  | none =>
    rw [hct] at h
    cases h
  | some ct =>
    rw [hct] at h
    injection h with h
    subst h
    rfl

/-- Witness for C8: the 401 example yields the message 401 Unauthorized. -/
theorem repoError_message_witness :
    CDRError.make unauthorizedResponse
      = some { message := "401 Unauthorized",
               body := some (.jsonVal (Json.obj [("error", Json.str "unauthorized")])) }
    ∧ ({ message := "401 Unauthorized",
         body := some (.jsonVal (Json.obj [("error", Json.str "unauthorized")])) }
          : CDRError).message
        = toString unauthorizedResponse.status ++ " " ++ unauthorizedResponse.statusText :=
  ⟨rfl, repoError_message unauthorizedResponse _ rfl⟩

/-- C10: for every non-2xx response without a content-type header, the
CDRError constructor itself throws (the lookup yields null), so the caller
receives that secondary TypeError failure instead of a RepositoryError. -/
theorem query_missing_contentType_throws (c : CDR) (server : Request → Response)
    (aql : String)
    (hct : headersGet (server (c.request aql)).headers "content-type" = none)
    (hok : ¬ (200 ≤ (server (c.request aql)).status
              ∧ (server (c.request aql)).status < 300)) :
    CDRError.make (server (c.request aql)) = none
    ∧ c.query server aql = Except.error Rejection.typeError := by
  obtain ⟨h204, hro⟩ := status_not_ok_aux _ hok
  have hmake : CDRError.make (server (c.request aql)) = none := by
    unfold CDRError.make
    rw [hct]
  exact ⟨hmake, by simp [CDR.query, checkStatus, h204, hro, hmake]⟩

/-- Witness for C10: a 500 response with no headers makes the error
construction fail, and the query surfaces the TypeError. -/
theorem query_missing_contentType_throws_witness :
    headersGet bareErrorResponse.headers "content-type" = none
    ∧ (¬ (200 ≤ bareErrorResponse.status ∧ bareErrorResponse.status < 300))
    ∧ (CDRError.make bareErrorResponse = none
       ∧ (demoCDR "http://a").query (fun _ => bareErrorResponse) "aql"
           = Except.error Rejection.typeError) :=
  ⟨rfl, by decide,
   query_missing_contentType_throws (demoCDR "http://a") (fun _ => bareErrorResponse)
     "aql" rfl (by decide)⟩

/-- C6: for every configuration, the Authorization header sent by a query
equals Basic followed by the base64 of username, colon, password; it is the
credential stored at construction, and the same value appears unchanged in the
request of every later query call. -/
theorem auth_header_stable (config : Config) (aql1 aql2 : String) :
    (CDR.make config).authentication
        = "Basic " ++ strBase64 (config.authentication.username ++ ":"
            ++ config.authentication.password)
    ∧ headersGet ((CDR.make config).request aql1).headers "Authorization"
        = some ((CDR.make config).authentication)
    ∧ headersGet ((CDR.make config).request aql1).headers "Authorization"
        = headersGet ((CDR.make config).request aql2).headers "Authorization" :=
  ⟨rfl, rfl, rfl⟩

/-- C7: for every AQL string, a single-repository query performs exactly one
HTTP POST to the base URL extended with the query path, with body the JSON
serialization of the object with the single aql key, and with the
Content-Type and precomputed Authorization headers. -/
theorem query_request_shape (c : CDR) (q : String) :
    c.queryRequests q = [c.request q]
    ∧ (c.request q).method = "post"
    ∧ (c.request q).url = c.url ++ "/rest/v1/query"
    ∧ (c.request q).body = Json.stringify (Json.obj [("aql", Json.str q)])
    ∧ (c.request q).headers
        = [("Content-Type", "application/json"), ("Authorization", c.authentication)] :=
  ⟨rfl, rfl, rfl, rfl, rfl⟩

/-- C2: when every per-repository result of a multi-repository query fulfills,
the array delivered by all().concat() holds one entry per client in client
insertion order, whatever the completion ticks of the individual responses. -/
theorem multi_query_preserves_order (m : CDRs) (env : Nat → Nat × (Request → Response))
    (aql : String) (vs : List Json)
    (h : (m.query env aql).promises.map Prod.snd = vs.map Except.ok) :
    ((m.query env aql).all).concat = Except.ok vs := by
  have hf := failures_eq_nil _ vs h
  have ho := okValues_eq _ vs h
  simp [CDRsResponse.all, CDRsFormatter.concat, promiseAll, hf, ho, firstSettledFailure]

/-- Witness for C2: three clients succeed with bodies 1, 2, 3 in client order
while the second server answers first, and concat yields the values in client
order. -/
theorem multi_query_preserves_order_witness :
    (demoCDRs.query demoEnvOk "aql").promises.map Prod.snd
        = [Json.num 1, Json.num 2, Json.num 3].map Except.ok
    ∧ ((demoCDRs.query demoEnvOk "aql").all).concat
        = Except.ok [Json.num 1, Json.num 2, Json.num 3] :=
  ⟨rfl, multi_query_preserves_order demoCDRs demoEnvOk "aql"
     [Json.num 1, Json.num 2, Json.num 3] rfl⟩

/-- C3: when some per-repository result of a multi-repository query rejects,
the aggregate rejects with the first rejection observed (minimal completion
tick, earlier client on a tie), and nothing of the other outcomes reaches the
caller. -/
theorem multi_query_fail_fast (m : CDRs) (env : Nat → Nat × (Request → Response))
    (aql : String) (t : Nat) (r : Rejection) (pre post : List (Nat × Rejection))
    (hdec : failures (m.query env aql).promises = pre ++ (t, r) :: post)
    (hpre : ∀ g ∈ pre, t < g.1) (hpost : ∀ g ∈ post, t ≤ g.1) :
    ((m.query env aql).all).concat = Except.error r := by
  simp [CDRsResponse.all, CDRsFormatter.concat, promiseAll, hdec,
        firstSettledFailure_of_decomp t r pre post hpre hpost]

/-- Witness for C3: of three clients the second rejects (and settles first),
and concat delivers exactly that RepositoryError. -/
theorem multi_query_fail_fast_witness :
    failures (demoCDRs.query demoEnvFail "aql").promises
        = [] ++ (1, demoRejection) :: []
    ∧ ((demoCDRs.query demoEnvFail "aql").all).concat = Except.error demoRejection :=
  ⟨rfl, multi_query_fail_fast demoCDRs demoEnvFail "aql" 1 demoRejection [] [] rfl
     (by simp) (by simp)⟩

/-- C9: a multi-repository client over the empty client list resolves
all().concat() with the empty array for every AQL string and issues no HTTP
requests. -/
theorem empty_multi_query (env : Nat → Nat × (Request → Response)) (aql : String) :
    (((⟨[]⟩ : CDRs).query env aql).all).concat = Except.ok []
    ∧ (⟨[]⟩ : CDRs).queryRequests aql = [] :=
  ⟨rfl, rfl⟩
